import Mathlib

/-!
Verification development for the NEO close-approach models and writers
(`models.py`, `write.py`).

Modelling conventions of the shallow embedding:

* Python floats are modelled by `Fl`: either NaN or an exact decimal number
  `mant / 10 ^ exp`.  Every float the program manufactures comes from parsing
  a decimal literal out of the data set (or is the constant `0.0`), so exact
  decimals cover all reachable values; the parser normalises the pair (no
  trailing zero digits, zero is `(0, 0)`), making structural equality agree
  with numeric equality on parser outputs.  The sign of `-0.0` is not kept,
  matching Python equality `-0.0 == 0.0` and its falsiness.
* `str(float)` / `repr(float)` are modelled by rendering the exact decimal
  (`pyStr`); on the data set's short decimals this agrees with CPython's
  shortest-roundtrip repr.  `json.dump` renders floats the same way except
  that NaN prints as the literal `NaN`.
* The builtin `float(str)` conversion is modelled by `parseFloat` on the
  grammar fragment the data set uses: optional surrounding spaces, optional
  sign, `nan` (any case), and decimal digit strings with an optional point
  (no exponent, infinity or underscore forms).
* Input keyword mappings are association lists from field-name strings to
  string values (the ingestion layer feeds decoded text fields); Python
  truthiness of such a value is non-emptiness.
* Raised exceptions are modelled by `Except` / an error component:
  `MissingRequiredField` stands for the `KeyError` raised for a missing
  designation, `InvalidNumericField` for the `ValueError` a failed `float()`
  conversion raises, and `AttributeError` for attribute access on `None`.
* The destination file of a writer is modelled as `Option String` (`none` =
  the file does not exist); a writer returns the error it raises, if any,
  together with the file state it leaves behind.
-/

/-- Decimal value of a digit string, most significant digit first. -/
def digitsVal (ds : List Char) : ℕ :=
  ds.foldl (fun a c => 10 * a + (c.toNat - 48)) 0

/-- Fuel-driven accumulator loop producing the decimal digits of a natural
number, most significant first. -/
def natDigitsAux : ℕ → ℕ → List Char → List Char
  | 0, _, acc => acc
  | fuel + 1, n, acc =>
    if n < 10 then Char.ofNat (48 + n) :: acc
    else natDigitsAux fuel (n / 10) (Char.ofNat (48 + n % 10) :: acc)

/-- Decimal digits of a natural number (`natDigits 3312 = ['3','3','1','2']`). -/
def natDigits (n : ℕ) : List Char :=
  natDigitsAux (n + 1) n []

/-- Model of a CPython float as stored by this program: NaN, or the exact
decimal `mant / 10 ^ exp`. -/
inductive Fl where
  | nan : Fl
  | num (mant : ℤ) (exp : ℕ) : Fl
deriving DecidableEq, Repr

/-- Truthiness of a float in Python boolean context: only the value `0.0` is
falsy; NaN is truthy. -/
def Fl.truthy : Fl → Bool
  | Fl.nan => true
  | Fl.num m _ => if m = 0 then false else true

/-- Normalisation of a decimal pair: strip trailing zero digits so that equal
values get equal representations (`normNum 1500 2 = Fl.num 15 0`). -/
def normNum : ℤ → ℕ → Fl
  | m, 0 => Fl.num m 0
  | m, e + 1 => if m % 10 = 0 then normNum (m / 10) e else Fl.num m (e + 1)

/-- Strip leading and trailing spaces, as `float(str)` does. -/
def stripSpaces (cs : List Char) : List Char :=
  ((cs.dropWhile (fun c => c == ' ')).reverse.dropWhile (fun c => c == ' ')).reverse

/-- Parse an unsigned decimal literal (`"12"`, `"12.5"`, `"12."`, `".5"`)
into mantissa and decimal-exponent; `none` on any other shape. -/
def parseDecimal (cs : List Char) : Option (ℕ × ℕ) :=
  let ip := cs.takeWhile Char.isDigit
  match cs.dropWhile Char.isDigit with
  | [] => if ip.isEmpty then none else some (digitsVal ip, 0)
  | '.' :: fs =>
    let fp := fs.takeWhile Char.isDigit
    if fs.dropWhile Char.isDigit = [] ∧ ¬(ip.isEmpty ∧ fp.isEmpty) then
      some (digitsVal ip * 10 ^ fp.length + digitsVal fp, fp.length)
    else none
  | _ => none

/-- Model of the builtin `float(str)` conversion on the fragment the data set
uses (see the module docstring); `none` models the `ValueError` raised on a
string that is not a numeric literal. -/
def parseFloat (s : String) : Option Fl :=
  let cs := stripSpaces s.data
  let sb : ℤ × List Char :=
    match cs with
    | '+' :: rest => (1, rest)
    | '-' :: rest => (-1, rest)
    | rest => (1, rest)
  if sb.2.map Char.toLower = ['n', 'a', 'n'] then some Fl.nan
  else
    match parseDecimal sb.2 with
    | some (m, e) => some (normNum (sb.1 * (m : ℤ)) e)
    | none => none

/-- Character rendering of the decimal `m / 10 ^ e` the way CPython prints a
float: sign, integer part (at least one digit), point, fractional part
(`.0` when the value is integral). -/
def floatChars (m : ℤ) (e : ℕ) : List Char :=
  let sign : List Char := if m < 0 then ['-'] else []
  let ds := natDigits m.natAbs
  if e = 0 then sign ++ ds ++ ['.', '0']
  else
    let ds := List.replicate (e + 1 - ds.length) '0' ++ ds
    sign ++ ds.take (ds.length - e) ++ '.' :: ds.drop (ds.length - e)

/-- Model of Python `str` applied to a float (NaN prints as `nan`). -/
def pyStr : Fl → String
  | Fl.nan => "nan"
  | Fl.num m e => String.mk (floatChars m e)

/-- Model of the float rendering used by `json.dump` (NaN prints as `NaN`). -/
def jsonFloat : Fl → String
  | Fl.nan => "NaN"
  | Fl.num m e => String.mk (floatChars m e)

/-- An input keyword mapping (the `info` dictionary a constructor receives):
field names to decoded text values. -/
def Info : Type := List (String × String)

/-- Dictionary lookup, first binding wins (a Python dict has unique keys). -/
def findField : Info → String → Option String
  | [], _ => none
  | (k, v) :: rest, key => if k = key then some v else findField rest key

/-- Model of the Python test `key in info and info[key]`: the value when the
field is present and truthy (non-empty), otherwise `none`. -/
def getTruthy (info : Info) (k : String) : Option String :=
  match findField info k with
  | some v => if v = "" then none else some v
  | none => none

/-- Errors the modelled code can raise (see the module docstring for the
correspondence with Python exception kinds). -/
inductive ModelError where
  | MissingRequiredField (msg : String) : ModelError
  | InvalidNumericField (value : String) : ModelError
  | AttributeError (msg : String) : ModelError
deriving DecidableEq, Repr

/-- Modelled from the spec: the external timestamp helper (`helpers.py`, not
part of the verified sources) parses a compact date-time string into a
structured timestamp.  Only its round-trip through the formatter is
observable here, so the timestamp carries its source text. -/
structure PyDatetime where
  raw : String
deriving DecidableEq, Repr

/-- Modelled from the spec: the external parser `cd_to_datetime`. -/
def cd_to_datetime (s : String) : PyDatetime := ⟨s⟩

/-- Modelled from the spec: the external formatter `datetime_to_str`, which
always yields a string and maps a null timestamp to a fixed sentinel. -/
def datetime_to_str : Option PyDatetime → String
  | some d => d.raw
  | none => "an unknown time"

/-- A primitive JSON value as produced by the two `serialize` methods. -/
inductive JPrim where
  | s (v : String) : JPrim
  | f (v : Fl) : JPrim
  | b (v : Bool) : JPrim
deriving DecidableEq, Repr

/-- Embedding of `models.NearEarthObject` after `__init__` has run.  The
`approaches` collection (always empty at construction, mutated only by the
external database-assembly step) carries no information relevant to the
verified behaviour and is omitted. -/
structure NearEarthObject where
  designation : String
  name : Option String
  diameter : Fl
  hazardous : Bool
deriving DecidableEq, Repr

/-- Embedding of `NearEarthObject.serialize`. -/
def NearEarthObject.serialize (neo : NearEarthObject) : List (String × JPrim) :=
  [("designation", JPrim.s neo.designation),
   ("name", JPrim.s (match neo.name with
     | some n => if n = "" then "" else n
     | none => "")),
   ("diameter_km", JPrim.f neo.diameter),
   ("potentially_hazardous", JPrim.b neo.hazardous)]

/-- Embedding of the `pha` branch of `NearEarthObject.__init__`. -/
def hazardousOf (info : Info) : Bool :=
  match getTruthy info "pha" with
  | some v => if v = "Y" then true else false
  | none => false

/-- Embedding of the shared numeric-field pattern
`float(info[k]) if truthy else default` used for `diameter`, `dist` and
`v_rel`; a present, truthy, unparsable value raises. -/
def numField (info : Info) (k : String) (dflt : Fl) : Except ModelError Fl :=
  match getTruthy info k with
  | some v =>
    match parseFloat v with
    | some f => Except.ok f
    | none => Except.error (ModelError.InvalidNumericField v)
  | none => Except.ok dflt

/-- Embedding of `NearEarthObject.__init__` on an input mapping. -/
def NearEarthObject.init (info : Info) : Except ModelError NearEarthObject :=
  match getTruthy info "pdes" with
  | none => Except.error (ModelError.MissingRequiredField
      "The unique primary designation (pdes) for NEO is missing.")
  | some designation =>
    match numField info "diameter" Fl.nan with
    | Except.error e => Except.error e
    | Except.ok diameter =>
      Except.ok { designation := designation,
                  name := getTruthy info "name",
                  diameter := diameter,
                  hazardous := hazardousOf info }

/-- Embedding of `models.CloseApproach` after `__init__` has run. -/
structure CloseApproach where
  _designation : String
  time : Option PyDatetime
  distance : Fl
  velocity : Fl
  neo : Option NearEarthObject
deriving DecidableEq, Repr

/-- Embedding of `CloseApproach.__init__` on an input mapping. -/
def CloseApproach.init (info : Info) : Except ModelError CloseApproach :=
  match getTruthy info "des" with
  | none => Except.error (ModelError.MissingRequiredField
      "The unique designation for CA is missing.")
  | some d =>
    match numField info "dist" (Fl.num 0 0) with
    | Except.error e => Except.error e
    | Except.ok distance =>
      match numField info "v_rel" (Fl.num 0 0) with
      | Except.error e => Except.error e
      | Except.ok velocity =>
        Except.ok { _designation := d,
                    time := (getTruthy info "cd").map cd_to_datetime,
                    distance := distance,
                    velocity := velocity,
                    neo := none }

/-- Embedding of the `time_str` property. -/
def CloseApproach.time_str (ca : CloseApproach) : String :=
  datetime_to_str ca.time

/-- Embedding of `CloseApproach.serialize`. -/
def CloseApproach.serialize (ca : CloseApproach) : List (String × JPrim) :=
  [("datetime_utc", JPrim.s ca.time_str),
   ("distance_au", JPrim.f ca.distance),
   ("velocity_km_s", JPrim.f ca.velocity)]

/-- Embedding of the fixed CSV header line written by `write_to_csv`. -/
def csvHeader : String :=
  String.intercalate "," ["datetime_utc", "distance_au", "velocity_km_s",
    "designation", "name", "diameter_km", "potentially_hazardous"] ++ "\n"

/-- Embedding of the per-row field derivation in the `write_to_csv` loop body
(the seven components of `result_str`), for a record whose `neo` reference
has been resolved to `neo`. -/
def csvFields (result : CloseApproach) (neo : NearEarthObject) : List String :=
  let distance := if result.distance.truthy then pyStr result.distance else ""
  let velocity := if result.velocity.truthy then pyStr result.velocity else ""
  let name := match neo.name with
    | some n => if n = "" then "" else n
    | none => ""
  let diameter := if neo.diameter.truthy then pyStr neo.diameter else ""
  let hazardous := if neo.hazardous then "True" else "False"
  [result.time_str, distance, velocity, result._designation, name, diameter, hazardous]

/-- The complete text `write_to_csv` appends for one record: the
comma-joined fields followed by a newline. -/
def rowOf (result : CloseApproach) (neo : NearEarthObject) : String :=
  String.intercalate "," (csvFields result neo) ++ "\n"

/-- Embedding of the `for result in results` loop of `write_to_csv`; `acc` is
the text already written to the open file.  A record whose `neo` is still
null raises on the `result.neo.name` access, leaving the file with the text
written so far. -/
def write_to_csv_loop : List CloseApproach → String → Option ModelError × String
  | [], acc => (none, acc)
  | result :: rest, acc =>
    match result.neo with
    | none => (some (ModelError.AttributeError "NoneType has no attribute name"), acc)
    | some neo => write_to_csv_loop rest (acc ++ rowOf result neo)

/-- Embedding of `write_to_csv`: open (truncate) the file, write the header,
then run the loop.  Returns the raised error (if any) and the final file
content. -/
def write_to_csv (results : List CloseApproach) : Option ModelError × String :=
  write_to_csv_loop results csvHeader

/-- Declarative description of the CSV data section: one row per input
record, in input order. -/
def csvRowsOf : List CloseApproach → String
  | [] => ""
  | result :: rest =>
    (match result.neo with
     | some neo => rowOf result neo
     | none => "") ++ csvRowsOf rest

/-- Escape a double quote or backslash for a JSON string literal. -/
def jsonEscape : List Char → List Char
  | [] => []
  | c :: rest =>
    if c = '"' ∨ c = '\\' then '\\' :: c :: jsonEscape rest
    else c :: jsonEscape rest

/-- Render a JSON string literal the way `json.dump` does. -/
def jsonQuote (s : String) : String :=
  String.mk ('"' :: (jsonEscape s.data ++ ['"']))

/-- Render a primitive JSON value the way `json.dump` does. -/
def JPrim.render : JPrim → String
  | JPrim.s v => jsonQuote v
  | JPrim.f v => jsonFloat v
  | JPrim.b true => "true"
  | JPrim.b false => "false"

/-- Render the members of a flat JSON object with the default `json.dump`
separators (`", "` between members, `": "` after a key). -/
def renderPrimFields : List (String × JPrim) → String
  | [] => ""
  | [(k, v)] => jsonQuote k ++ ": " ++ JPrim.render v
  | (k, v) :: rest => jsonQuote k ++ ": " ++ JPrim.render v ++ ", " ++ renderPrimFields rest

/-- A JSON value one level up: a primitive, or a flat object (the shape the
`neo` key holds). -/
inductive JVal where
  | prim (p : JPrim) : JVal
  | obj (fields : List (String × JPrim)) : JVal

/-- Render a `JVal` the way `json.dump` does. -/
def JVal.render : JVal → String
  | JVal.prim p => JPrim.render p
  | JVal.obj fields => "\x7b" ++ renderPrimFields fields ++ "\x7d"

/-- Render the members of a top-level output object. -/
def renderValFields : List (String × JVal) → String
  | [] => ""
  | [(k, v)] => jsonQuote k ++ ": " ++ JVal.render v
  | (k, v) :: rest => jsonQuote k ++ ": " ++ JVal.render v ++ ", " ++ renderValFields rest

/-- Render one element of the output array (a JSON object). -/
def renderEntry (e : List (String × JVal)) : String :=
  "\x7b" ++ renderValFields e ++ "\x7d"

/-- Render the elements of the output array, `", "`-separated. -/
def renderElems : List (List (String × JVal)) → String
  | [] => ""
  | [e] => renderEntry e
  | e :: rest => renderEntry e ++ ", " ++ renderElems rest

/-- Embedding of `json.dump` applied to the list `results_json`. -/
def jsonDumpList (l : List (List (String × JVal))) : String :=
  "[" ++ renderElems l ++ "]"

/-- Embedding of one iteration of the `write_to_json` loop: serialize the
record's NEO and the record, and put the former under the added `neo` key.
A record whose `neo` is still null raises on `result.neo.serialize()`. -/
def serializeResult (result : CloseApproach) : Except ModelError (List (String × JVal)) :=
  match result.neo with
  | none => Except.error (ModelError.AttributeError "NoneType has no attribute serialize")
  | some neo =>
    Except.ok ((result.serialize.map (fun p => (p.1, JVal.prim p.2)))
      ++ [("neo", JVal.obj neo.serialize)])

/-- Embedding of the `for result in results` loop of `write_to_json`; `acc`
is the `results_json` list built so far. -/
def write_to_json_loop : List CloseApproach → List (List (String × JVal)) →
    Except ModelError (List (List (String × JVal)))
  | [], acc => Except.ok acc
  | result :: rest, acc =>
    match serializeResult result with
    | Except.error e => Except.error e
    | Except.ok entry => write_to_json_loop rest (acc ++ [entry])

/-- Embedding of `write_to_json`: build the whole `results_json` list first;
only when that loop finishes is the file opened (truncated) and the dump
written.  `fs` is the destination file before the call; the second component
is the destination file after it. -/
def write_to_json (results : List CloseApproach) (fs : Option String) :
    Option ModelError × Option String :=
  match write_to_json_loop results [] with
  | Except.error e => (some e, fs)
  | Except.ok lst => (none, some (jsonDumpList lst))

/-- Declarative description of the output array elements: each record's
serialization mapping extended with the `neo` key, in input order. -/
def jsonElems : List CloseApproach → List (List (String × JVal))
  | [] => []
  | result :: rest =>
    (match result.neo with
     | some neo => (result.serialize.map (fun p => (p.1, JVal.prim p.2)))
         ++ [("neo", JVal.obj neo.serialize)]
     | none => []) :: jsonElems rest

/-- Does a numeric field parse (or default) rather than raise: true when the
field is absent or empty, or its value is a parseable numeric literal. -/
def numOK (info : Info) (k : String) : Bool :=
  match getTruthy info k with
  | some v => (parseFloat v).isSome
  | none => true

/-- The spec's example NEO (`433 Eros`), as `NearEarthObject.__init__` builds it. -/
def neoEros : NearEarthObject :=
  { designation := "433", name := some "Eros", diameter := Fl.num 1684 2,
    hazardous := false }

/-- The spec's example close approach of `433 Eros`, after linkage. -/
def caEros : CloseApproach :=
  { _designation := "433", time := some ⟨"2025-01-01 06:00"⟩,
    distance := Fl.num 15 2, velocity := Fl.num 502 2, neo := some neoEros }

/-- The same approach before linkage (`neo` still null). -/
def caUnlinked : CloseApproach :=
  { caEros with neo := none }

/-- An approach whose distance is `0.3312` and whose velocity is `0.0`. -/
def ca0312 : CloseApproach :=
  { _designation := "2020 AB", time := none, distance := Fl.num 3312 4,
    velocity := Fl.num 0 0, neo := none }

/-- A nameless NEO with an unknown (NaN) diameter. -/
def neoNoDiam : NearEarthObject :=
  { designation := "433", name := none, diameter := Fl.nan, hazardous := false }

/-- A NEO constructed from `diameter="0"`: its diameter is exactly `0.0`. -/
def neoZeroDiam : NearEarthObject :=
  { designation := "434", name := none, diameter := Fl.num 0 0, hazardous := false }

/-- An approach constructed with no `dist` or `v_rel` field. -/
def caDefaults : CloseApproach :=
  { _designation := "433", time := none, distance := Fl.num 0 0,
    velocity := Fl.num 0 0, neo := none }

theorem floatChars_ne_nil (m : ℤ) (e : ℕ) : floatChars m e ≠ [] := by
  unfold floatChars
  by_cases he : e = 0 <;> simp [he]

theorem pyStr_ne_empty (f : Fl) : pyStr f ≠ "" := by
  cases f with
  | nan => simp [pyStr]
  | num m e =>
    simp only [pyStr]
    intro h
    exact floatChars_ne_nil m e (by simpa using congrArg String.data h)

theorem truthy_field_empty_iff (f : Fl) :
    ((if f.truthy then pyStr f else "") = "" ↔ ∃ e, f = Fl.num 0 e) := by
  cases f with
  | nan => simp [Fl.truthy, pyStr]
  | num m e =>
    by_cases hm : m = 0
    · subst hm
      simp only [Fl.truthy, if_pos rfl]
      simp
    · simp [Fl.truthy, hm, pyStr_ne_empty (Fl.num m e)]

theorem truthy_true_iff (f : Fl) : f.truthy = true ↔ ¬ ∃ e, f = Fl.num 0 e := by
  cases f with
  | nan => simp [Fl.truthy]
  | num m e =>
    by_cases hm : m = 0
    · subst hm
      simp only [Fl.truthy, if_pos rfl]
      simp
    · simp [Fl.truthy, hm]

theorem numField_of_none (info : Info) (k : String) (dflt : Fl)
    (hv : getTruthy info k = none) :
    numField info k dflt = Except.ok dflt := by
  unfold numField
  rw [hv]

theorem numField_of_parse (info : Info) (k : String) (dflt : Fl) (v : String) (f : Fl)
    (hv : getTruthy info k = some v) (hp : parseFloat v = some f) :
    numField info k dflt = Except.ok f := by
  unfold numField
  simp only [hv, hp]

theorem numField_of_bad (info : Info) (k : String) (dflt : Fl) (v : String)
    (hv : getTruthy info k = some v) (hp : parseFloat v = none) :
    numField info k dflt = Except.error (ModelError.InvalidNumericField v) := by
  unfold numField
  simp only [hv, hp]

theorem numField_error_shape (info : Info) (k : String) (dflt : Fl) (e : ModelError)
    (h : numField info k dflt = Except.error e) :
    ∃ v, e = ModelError.InvalidNumericField v := by
  unfold numField at h
  split at h
  · split at h
    · exact absurd h (by simp)
    · exact ⟨_, (Except.error.injEq _ _).mp h.symm⟩
  · exact absurd h (by simp)

theorem numField_ok_of_numOK (info : Info) (k : String) (dflt : Fl)
    (h : numOK info k = true) :
    ∃ f, numField info k dflt = Except.ok f := by
  unfold numOK at h
  unfold numField
  cases hv : getTruthy info k with
  | none => exact ⟨dflt, rfl⟩
  | some v =>
    rw [hv] at h
    simp only [hv]
    cases hp : parseFloat v with
    | none => simp only [hp, Option.isSome] at h; exact Bool.noConfusion h
    | some f => simp only [hp]; exact ⟨f, rfl⟩

theorem neo_init_ok_inv (info : Info) (neo : NearEarthObject)
    (h : NearEarthObject.init info = Except.ok neo) :
    getTruthy info "pdes" = some neo.designation
    ∧ neo.name = getTruthy info "name"
    ∧ numField info "diameter" Fl.nan = Except.ok neo.diameter
    ∧ neo.hazardous = hazardousOf info := by
  unfold NearEarthObject.init at h
  split at h
  · exact absurd h (by simp)
  · rename_i d heq
    split at h
    · exact absurd h (by simp)
    · rename_i f heq2
      injection h with h2
      subst h2
      exact ⟨heq, rfl, heq2, rfl⟩

theorem neo_init_ok_of (info : Info) (d : String) (f : Fl)
    (hp : getTruthy info "pdes" = some d)
    (hd : numField info "diameter" Fl.nan = Except.ok f) :
    NearEarthObject.init info =
      Except.ok { designation := d, name := getTruthy info "name",
                  diameter := f, hazardous := hazardousOf info } := by
  unfold NearEarthObject.init
  rw [hp, hd]

theorem neo_init_missing (info : Info)
    (hp : getTruthy info "pdes" = none) :
    NearEarthObject.init info = Except.error (ModelError.MissingRequiredField
      "The unique primary designation (pdes) for NEO is missing.") := by
  unfold NearEarthObject.init
  rw [hp]

theorem neo_init_numError (info : Info) (d : String) (e : ModelError)
    (hp : getTruthy info "pdes" = some d)
    (hd : numField info "diameter" Fl.nan = Except.error e) :
    NearEarthObject.init info = Except.error e := by
  unfold NearEarthObject.init
  rw [hp, hd]

theorem ca_init_ok_inv (info : Info) (ca : CloseApproach)
    (h : CloseApproach.init info = Except.ok ca) :
    getTruthy info "des" = some ca._designation
    ∧ ca.time = (getTruthy info "cd").map cd_to_datetime
    ∧ numField info "dist" (Fl.num 0 0) = Except.ok ca.distance
    ∧ numField info "v_rel" (Fl.num 0 0) = Except.ok ca.velocity
    ∧ ca.neo = none := by
  unfold CloseApproach.init at h
  split at h
  · exact absurd h (by simp)
  · rename_i d heq
    split at h
    · exact absurd h (by simp)
    · rename_i fd heq2
      split at h
      · exact absurd h (by simp)
      · rename_i fv heq3
        injection h with h2
        subst h2
        exact ⟨heq, rfl, heq2, heq3, rfl⟩

theorem ca_init_ok_of (info : Info) (d : String) (fd fv : Fl)
    (hp : getTruthy info "des" = some d)
    (h1 : numField info "dist" (Fl.num 0 0) = Except.ok fd)
    (h2 : numField info "v_rel" (Fl.num 0 0) = Except.ok fv) :
    CloseApproach.init info =
      Except.ok { _designation := d,
                  time := (getTruthy info "cd").map cd_to_datetime,
                  distance := fd, velocity := fv, neo := none } := by
  unfold CloseApproach.init
  rw [hp, h1, h2]

theorem ca_init_missing (info : Info)
    (hp : getTruthy info "des" = none) :
    CloseApproach.init info = Except.error (ModelError.MissingRequiredField
      "The unique designation for CA is missing.") := by
  unfold CloseApproach.init
  rw [hp]

theorem ca_init_distError (info : Info) (d : String) (e : ModelError)
    (hp : getTruthy info "des" = some d)
    (h1 : numField info "dist" (Fl.num 0 0) = Except.error e) :
    CloseApproach.init info = Except.error e := by
  unfold CloseApproach.init
  rw [hp, h1]

theorem ca_init_vrelError (info : Info) (d : String) (fd : Fl) (e : ModelError)
    (hp : getTruthy info "des" = some d)
    (h1 : numField info "dist" (Fl.num 0 0) = Except.ok fd)
    (h2 : numField info "v_rel" (Fl.num 0 0) = Except.error e) :
    CloseApproach.init info = Except.error e := by
  unfold CloseApproach.init
  rw [hp, h1, h2]

theorem hazardousOf_eq_true_iff (info : Info) :
    hazardousOf info = true ↔ findField info "pha" = some "Y" := by
  unfold hazardousOf getTruthy
  cases hf : findField info "pha" with
  | none => simp
  | some v =>
    by_cases hv : v = ""
    · subst hv
      simp
    · simp only [if_neg hv]
      by_cases hy : v = "Y" <;> simp [hy]

theorem write_to_csv_loop_ok (results : List CloseApproach)
    (h : ∀ r ∈ results, r.neo ≠ none) (acc : String) :
    write_to_csv_loop results acc = (none, acc ++ csvRowsOf results) := by
  induction results generalizing acc with
  | nil => simp [write_to_csv_loop, csvRowsOf]
  | cons r rest ih =>
    cases hn : r.neo with
    | none => exact absurd hn (h r (by simp))
    | some neo =>
      simp only [write_to_csv_loop, csvRowsOf, hn]
      rw [ih (fun x hx => h x (by simp [hx])) (acc ++ rowOf r neo)]
      rw [String.append_assoc]

theorem write_to_json_loop_ok (results : List CloseApproach)
    (h : ∀ r ∈ results, r.neo ≠ none) (acc : List (List (String × JVal))) :
    write_to_json_loop results acc = Except.ok (acc ++ jsonElems results) := by
  induction results generalizing acc with
  | nil => simp [write_to_json_loop, jsonElems]
  | cons r rest ih =>
    cases hn : r.neo with
    | none => exact absurd hn (h r (by simp))
    | some neo =>
      simp only [write_to_json_loop, serializeResult, jsonElems, hn]
      rw [ih (fun x hx => h x (by simp [hx])) _]
      simp

theorem write_to_json_loop_err (results : List CloseApproach)
    (h : ∃ r ∈ results, r.neo = none) (acc : List (List (String × JVal))) :
    write_to_json_loop results acc
      = Except.error (ModelError.AttributeError "NoneType has no attribute serialize") := by
  induction results generalizing acc with
  | nil => simp at h
  | cons r rest ih =>
    cases hn : r.neo with
    | none => simp [write_to_json_loop, serializeResult, hn]
    | some neo =>
      simp only [write_to_json_loop, serializeResult, hn]
      apply ih
      rcases h with ⟨x, hx, hxn⟩
      rcases List.mem_cons.mp hx with hx1 | hx2
      · exact absurd (hx1 ▸ hxn) (by simp [hn])
      · exact ⟨x, hx2, hxn⟩

/-- C1: in every CSV row written by `write_to_csv`, the `distance_au` and
`velocity_km_s` columns render as the empty string exactly when the stored
value is `0.0`, and otherwise as the numeric text of the stored float; in
particular a stored distance of `0.3312` renders as the text `"0.3312"`. -/
theorem C1_csv_distance_velocity_empty_policy (r : CloseApproach) (neo : NearEarthObject) :
    ((csvFields r neo).getD 1 "" = "" ↔ (∃ e, r.distance = Fl.num 0 e))
  ∧ ((csvFields r neo).getD 2 "" = "" ↔ (∃ e, r.velocity = Fl.num 0 e))
  ∧ ((¬ ∃ e, r.distance = Fl.num 0 e) → (csvFields r neo).getD 1 "" = pyStr r.distance)
  ∧ ((¬ ∃ e, r.velocity = Fl.num 0 e) → (csvFields r neo).getD 2 "" = pyStr r.velocity)
  ∧ (r.distance = Fl.num 3312 4 → (csvFields r neo).getD 1 "" = "0.3312") := by
  have hd : (csvFields r neo).getD 1 ""
      = if r.distance.truthy then pyStr r.distance else "" := by
    simp [csvFields]
  have hv : (csvFields r neo).getD 2 ""
      = if r.velocity.truthy then pyStr r.velocity else "" := by
    simp [csvFields]
  refine ⟨?_, ?_, ?_, ?_, ?_⟩
  · rw [hd]; exact truthy_field_empty_iff r.distance
  · rw [hv]; exact truthy_field_empty_iff r.velocity
  · intro hz
    rw [hd, if_pos ((truthy_true_iff r.distance).mpr hz)]
  · intro hz
    rw [hv, if_pos ((truthy_true_iff r.velocity).mpr hz)]
  · intro hq
    rw [hd, hq]
    rfl

/-- C1 witness: an approach with stored distance `0.3312` renders the text
`"0.3312"` in the `distance_au` column. -/
theorem C1_witness : (csvFields ca0312 neoNoDiam).getD 1 "" = "0.3312" :=
  (C1_csv_distance_velocity_empty_policy ca0312 neoNoDiam).2.2.2.2 rfl

/-- C2: the `diameter_km` column is empty exactly when the linked NEO's
diameter is falsy (value zero); a NaN diameter is truthy and renders as the
text `"nan"`, never empty; the `potentially_hazardous` column always renders
`"True"` or `"False"`, never empty. -/
theorem C2_csv_diameter_hazardous_policy (r : CloseApproach) (neo : NearEarthObject) :
    ((csvFields r neo).getD 5 "" = "" ↔ (∃ e, neo.diameter = Fl.num 0 e))
  ∧ (neo.diameter = Fl.nan → (csvFields r neo).getD 5 "" = "nan")
  ∧ ((csvFields r neo).getD 6 "" = if neo.hazardous then "True" else "False")
  ∧ (csvFields r neo).getD 6 "" ≠ "" := by
  have hd : (csvFields r neo).getD 5 ""
      = if neo.diameter.truthy then pyStr neo.diameter else "" := by
    simp [csvFields]
  have hh : (csvFields r neo).getD 6 ""
      = if neo.hazardous then "True" else "False" := by
    simp [csvFields]
  refine ⟨?_, ?_, hh, ?_⟩
  · rw [hd]; exact truthy_field_empty_iff neo.diameter
  · intro hq
    rw [hd, hq]
    rfl
  · rw [hh]
    cases neo.hazardous <;> simp

/-- C2 witness: a NEO with NaN diameter renders the text `"nan"` in the
`diameter_km` column. -/
theorem C2_witness : (csvFields ca0312 neoNoDiam).getD 5 "" = "nan" :=
  (C2_csv_diameter_hazardous_policy ca0312 neoNoDiam).2.1 rfl

/-- C5: for every `NearEarthObject`, `serialize` produces a mapping with
exactly the keys `designation`, `name`, `diameter_km`,
`potentially_hazardous`, in which `name` is the stored name or the empty
string (never null, never omitted), `diameter_km` is the stored float (NaN
passed through unchanged) and `potentially_hazardous` the stored boolean. -/
theorem C5_neo_serialize_contract (neo : NearEarthObject) :
    (NearEarthObject.serialize neo).map Prod.fst =
      ["designation", "name", "diameter_km", "potentially_hazardous"]
  ∧ (NearEarthObject.serialize neo).lookup "designation" = some (JPrim.s neo.designation)
  ∧ (NearEarthObject.serialize neo).lookup "name" = some (JPrim.s (neo.name.getD ""))
  ∧ (NearEarthObject.serialize neo).lookup "diameter_km" = some (JPrim.f neo.diameter)
  ∧ (NearEarthObject.serialize neo).lookup "potentially_hazardous"
      = some (JPrim.b neo.hazardous) := by
  have hname : (NearEarthObject.serialize neo).lookup "name"
      = some (JPrim.s (match neo.name with
        | some n => if n = "" then "" else n
        | none => "")) := rfl
  refine ⟨rfl, rfl, ?_, rfl, rfl⟩
  rw [hname]
  cases neo.name with
  | none => rfl
  | some n =>
    by_cases hn : n = ""
    · subst hn; rfl
    · simp [hn]

/-- C6: a constructed NEO is hazardous exactly when the `pha` field is
present, truthy, and equal to the literal `"Y"`. -/
theorem C6_hazardous_iff_pha_Y (info : Info) (neo : NearEarthObject)
    (h : NearEarthObject.init info = Except.ok neo) :
    neo.hazardous = true ↔ findField info "pha" = some "Y" := by
  rw [(neo_init_ok_inv info neo h).2.2.2]
  exact hazardousOf_eq_true_iff info

/-- C6 witness: constructing with `pha="Y"` yields a hazardous NEO, and the
equivalence holds at that input. -/
theorem C6_witness :
    ({ designation := "433", name := none, diameter := Fl.nan,
       hazardous := true : NearEarthObject }.hazardous = true
      ↔ findField [("pdes", "433"), ("pha", "Y")] "pha" = some "Y") :=
  C6_hazardous_iff_pha_Y [("pdes", "433"), ("pha", "Y")]
    { designation := "433", name := none, diameter := Fl.nan, hazardous := true } rfl

/-- C3 counterexample: with `pdes` present and non-empty but an unparsable
`diameter`, construction does not succeed — it raises the numeric conversion
error — refuting the claim that a present, non-empty `pdes` suffices for
construction to succeed. -/
theorem C3_counterexample :
    getTruthy [("pdes", "433"), ("diameter", "not-a-number")] "pdes" = some "433"
  ∧ NearEarthObject.init [("pdes", "433"), ("diameter", "not-a-number")]
      = Except.error (ModelError.InvalidNumericField "not-a-number") :=
  ⟨rfl, rfl⟩

/-- C3 amended: construction raises `MissingRequiredField` exactly when
`pdes` (resp. `des`) is absent, empty or falsy; when the field is present
and non-empty, construction never raises `MissingRequiredField`, any
successfully constructed object carries that value as its designation, and
construction does succeed whenever the numeric fields also parse or
default. -/
theorem C3_required_designation (info : Info) :
    (NearEarthObject.init info = Except.error (ModelError.MissingRequiredField
        "The unique primary designation (pdes) for NEO is missing.")
      ↔ getTruthy info "pdes" = none)
  ∧ (∀ v neo, getTruthy info "pdes" = some v →
      NearEarthObject.init info = Except.ok neo → neo.designation = v)
  ∧ (∀ v, getTruthy info "pdes" = some v → numOK info "diameter" = true →
      ∃ neo, NearEarthObject.init info = Except.ok neo ∧ neo.designation = v)
  ∧ (CloseApproach.init info = Except.error (ModelError.MissingRequiredField
        "The unique designation for CA is missing.")
      ↔ getTruthy info "des" = none)
  ∧ (∀ v ca, getTruthy info "des" = some v →
      CloseApproach.init info = Except.ok ca → ca._designation = v)
  ∧ (∀ v, getTruthy info "des" = some v → numOK info "dist" = true →
      numOK info "v_rel" = true →
      ∃ ca, CloseApproach.init info = Except.ok ca ∧ ca._designation = v) := by
  refine ⟨⟨?_, neo_init_missing info⟩, ?_, ?_,
    ⟨?_, ca_init_missing info⟩, ?_, ?_⟩
  · intro h
    cases hp : getTruthy info "pdes" with
    | none => rfl
    | some d =>
      cases hnf : numField info "diameter" Fl.nan with
      | ok f =>
        rw [neo_init_ok_of info d f hp hnf] at h
        exact absurd h (by simp)
      | error e =>
        rw [neo_init_numError info d e hp hnf] at h
        obtain ⟨v, hv⟩ := numField_error_shape info "diameter" Fl.nan e hnf
        injection h with h2
        exact absurd (h2 ▸ hv) (by simp)
  · intro v neo hp h
    have := (neo_init_ok_inv info neo h).1
    rw [hp] at this
    exact (Option.some.injEq _ _).mp this.symm
  · intro v hp hok
    obtain ⟨f, hf⟩ := numField_ok_of_numOK info "diameter" Fl.nan hok
    exact ⟨_, neo_init_ok_of info v f hp hf, rfl⟩
  · intro h
    cases hp : getTruthy info "des" with
    | none => rfl
    | some d =>
      cases h1 : numField info "dist" (Fl.num 0 0) with
      | ok fd =>
        cases h2 : numField info "v_rel" (Fl.num 0 0) with
        | ok fv =>
          rw [ca_init_ok_of info d fd fv hp h1 h2] at h
          exact absurd h (by simp)
        | error e =>
          rw [ca_init_vrelError info d fd e hp h1 h2] at h
          obtain ⟨v, hv⟩ := numField_error_shape info "v_rel" (Fl.num 0 0) e h2
          injection h with h2x
          exact absurd (h2x ▸ hv) (by simp)
      | error e =>
        rw [ca_init_distError info d e hp h1] at h
        obtain ⟨v, hv⟩ := numField_error_shape info "dist" (Fl.num 0 0) e h1
        injection h with h2x
        exact absurd (h2x ▸ hv) (by simp)
  · intro v ca hp h
    have := (ca_init_ok_inv info ca h).1
    rw [hp] at this
    exact (Option.some.injEq _ _).mp this.symm
  · intro v hp hok1 hok2
    obtain ⟨fd, hfd⟩ := numField_ok_of_numOK info "dist" (Fl.num 0 0) hok1
    obtain ⟨fv, hfv⟩ := numField_ok_of_numOK info "v_rel" (Fl.num 0 0) hok2
    exact ⟨_, ca_init_ok_of info v fd fv hp hfd hfv, rfl⟩

/-- C3 witness: with `pdes` present and non-empty and no numeric fields,
construction succeeds and stores that designation. -/
theorem C3_witness :
    ∃ neo, NearEarthObject.init [("pdes", "433")] = Except.ok neo
      ∧ neo.designation = "433" :=
  (C3_required_designation [("pdes", "433")]).2.2.1 "433" rfl rfl

/-- C7: a NEO constructed without a `diameter` field has a NaN diameter,
distinct from the `0.0` diameter obtained from `diameter="0"`; an approach
constructed without `dist` or `v_rel` has distance and velocity exactly
`0.0`, not NaN. -/
theorem C7_numeric_defaults (i1 i2 i3 : Info)
    (n1 n2 : NearEarthObject) (ca : CloseApproach)
    (h1 : NearEarthObject.init i1 = Except.ok n1)
    (hd1 : getTruthy i1 "diameter" = none)
    (h2 : NearEarthObject.init i2 = Except.ok n2)
    (hd2 : getTruthy i2 "diameter" = some "0")
    (h3 : CloseApproach.init i3 = Except.ok ca)
    (hd3 : getTruthy i3 "dist" = none)
    (hv3 : getTruthy i3 "v_rel" = none) :
    n1.diameter = Fl.nan
  ∧ n2.diameter = Fl.num 0 0
  ∧ n1.diameter ≠ n2.diameter
  ∧ ca.distance = Fl.num 0 0 ∧ ca.distance ≠ Fl.nan
  ∧ ca.velocity = Fl.num 0 0 ∧ ca.velocity ≠ Fl.nan := by
  have e1 : n1.diameter = Fl.nan := by
    have := (neo_init_ok_inv i1 n1 h1).2.2.1
    rw [numField_of_none i1 "diameter" Fl.nan hd1] at this
    injection this.symm
  have e2 : n2.diameter = Fl.num 0 0 := by
    have := (neo_init_ok_inv i2 n2 h2).2.2.1
    rw [numField_of_parse i2 "diameter" Fl.nan "0" (Fl.num 0 0) hd2 rfl] at this
    injection this.symm
  have e3 : ca.distance = Fl.num 0 0 := by
    have := (ca_init_ok_inv i3 ca h3).2.2.1
    rw [numField_of_none i3 "dist" (Fl.num 0 0) hd3] at this
    injection this.symm
  have e4 : ca.velocity = Fl.num 0 0 := by
    have := (ca_init_ok_inv i3 ca h3).2.2.2.1
    rw [numField_of_none i3 "v_rel" (Fl.num 0 0) hv3] at this
    injection this.symm
  refine ⟨e1, e2, ?_, e3, ?_, e4, ?_⟩ <;> simp [e1, e2, e3, e4]

/-- C7 witness: the three constructions at concrete inputs, with the
defaults they produce. -/
theorem C7_witness :
    neoNoDiam.diameter = Fl.nan
  ∧ neoZeroDiam.diameter = Fl.num 0 0
  ∧ neoNoDiam.diameter ≠ neoZeroDiam.diameter
  ∧ caDefaults.distance = Fl.num 0 0 ∧ caDefaults.distance ≠ Fl.nan
  ∧ caDefaults.velocity = Fl.num 0 0 ∧ caDefaults.velocity ≠ Fl.nan :=
  C7_numeric_defaults [("pdes", "433")] [("pdes", "434"), ("diameter", "0")]
    [("des", "433")] neoNoDiam neoZeroDiam caDefaults rfl rfl rfl rfl rfl rfl rfl

/-- C8: a present, non-empty but unparsable `diameter`, `dist` or `v_rel`
value makes the corresponding constructor propagate `InvalidNumericField`;
when those fields are absent, empty, or parseable, construction succeeds
(other missing fields default without raising). -/
theorem C8_invalid_numeric_propagates (info : Info) :
    (∀ d v, getTruthy info "pdes" = some d → getTruthy info "diameter" = some v →
        parseFloat v = none →
        NearEarthObject.init info = Except.error (ModelError.InvalidNumericField v))
  ∧ (∀ d, getTruthy info "pdes" = some d → numOK info "diameter" = true →
        ∃ neo, NearEarthObject.init info = Except.ok neo)
  ∧ (∀ d v, getTruthy info "des" = some d → getTruthy info "dist" = some v →
        parseFloat v = none →
        CloseApproach.init info = Except.error (ModelError.InvalidNumericField v))
  ∧ (∀ d v, getTruthy info "des" = some d → numOK info "dist" = true →
        getTruthy info "v_rel" = some v → parseFloat v = none →
        CloseApproach.init info = Except.error (ModelError.InvalidNumericField v))
  ∧ (∀ d, getTruthy info "des" = some d → numOK info "dist" = true →
        numOK info "v_rel" = true → ∃ ca, CloseApproach.init info = Except.ok ca) := by
  refine ⟨?_, ?_, ?_, ?_, ?_⟩
  · intro d v hp hv hpf
    exact neo_init_numError info d _ hp
      (numField_of_bad info "diameter" Fl.nan v hv hpf)
  · intro d hp hok
    obtain ⟨f, hf⟩ := numField_ok_of_numOK info "diameter" Fl.nan hok
    exact ⟨_, neo_init_ok_of info d f hp hf⟩
  · intro d v hp hv hpf
    exact ca_init_distError info d _ hp
      (numField_of_bad info "dist" (Fl.num 0 0) v hv hpf)
  · intro d v hp hok hv hpf
    obtain ⟨fd, hfd⟩ := numField_ok_of_numOK info "dist" (Fl.num 0 0) hok
    exact ca_init_vrelError info d fd _ hp hfd
      (numField_of_bad info "v_rel" (Fl.num 0 0) v hv hpf)
  · intro d hp hok1 hok2
    obtain ⟨fd, hfd⟩ := numField_ok_of_numOK info "dist" (Fl.num 0 0) hok1
    obtain ⟨fv, hfv⟩ := numField_ok_of_numOK info "v_rel" (Fl.num 0 0) hok2
    exact ⟨_, ca_init_ok_of info d fd fv hp hfd hfv⟩

/-- C8 witness: a present, non-empty, unparsable `diameter` makes NEO
construction propagate the conversion error at a concrete input. -/
theorem C8_witness :
    NearEarthObject.init [("pdes", "433"), ("diameter", "oops")]
      = Except.error (ModelError.InvalidNumericField "oops") :=
  (C8_invalid_numeric_propagates [("pdes", "433"), ("diameter", "oops")]).1
    "433" "oops" rfl rfl rfl

/-- C9: `write_to_csv` writes exactly one header row with the fixed column
text, followed by one newline-terminated data row per input record, in
input order, with no re-sorting and no deduplication. -/
theorem C9_csv_header_and_rows (results : List CloseApproach)
    (h : ∀ r ∈ results, r.neo ≠ none) :
    write_to_csv results = (none, csvHeader ++ csvRowsOf results)
  ∧ csvHeader =
      "datetime_utc,distance_au,velocity_km_s,designation,name,diameter_km,potentially_hazardous\n"
  ∧ ∀ r neo, ∃ body, rowOf r neo = body ++ "\n" := by
  refine ⟨write_to_csv_loop_ok results h csvHeader, rfl, ?_⟩
  intro r neo
  exact ⟨String.intercalate "," (csvFields r neo), rfl⟩

/-- C9 witness: the fully linked example approach produces the header plus
its single row. -/
theorem C9_witness :
    write_to_csv [caEros] = (none, csvHeader ++ csvRowsOf [caEros]) :=
  (C9_csv_header_and_rows [caEros] (by decide)).1

/-- C4: `write_to_json` writes a single JSON array whose elements, in input
order, are each approach's serialization mapping extended with the key
`neo` holding its NEO's serialization mapping; an empty input sequence
produces the literal two-character file content `[]`. -/
theorem C4_json_array_shape (results : List CloseApproach) (fs : Option String)
    (h : ∀ r ∈ results, r.neo ≠ none) :
    write_to_json results fs = (none, some (jsonDumpList (jsonElems results)))
  ∧ write_to_json [] fs = (none, some "[]")
  ∧ String.length "[]" = 2 := by
  refine ⟨?_, rfl, rfl⟩
  unfold write_to_json
  rw [write_to_json_loop_ok results h []]
  simp

/-- C4 witness: the linked example approach yields the dumped array of its
serialization elements. -/
theorem C4_witness :
    write_to_json [caEros] none = (none, some (jsonDumpList (jsonElems [caEros]))) :=
  (C4_json_array_shape [caEros] none (by decide)).1

/-- C10: when any record's `neo` reference is still null, `write_to_json`
propagates the serialization error and leaves the destination file exactly
as it was — neither created nor truncated — because every record is
serialized before the file is opened. -/
theorem C10_json_error_preserves_file (results : List CloseApproach) (fs : Option String)
    (h : ∃ r ∈ results, r.neo = none) :
    write_to_json results fs
      = (some (ModelError.AttributeError "NoneType has no attribute serialize"), fs) := by
  unfold write_to_json
  rw [write_to_json_loop_err results h []]

/-- C10 witness: an unlinked record makes the writer fail and leave the
pre-existing file content untouched. -/
theorem C10_witness :
    write_to_json [caUnlinked] (some "previous content")
      = (some (ModelError.AttributeError "NoneType has no attribute serialize"),
         some "previous content") :=
  C10_json_error_preserves_file [caUnlinked] (some "previous content")
    ⟨caUnlinked, by decide, rfl⟩
